import Mathlib

/-!
Shallow embedding of the manticore repository's TCP transport support
(`e2e/src/support/tcp.rs`) and RSA capability module (`src/crypto/rsa.rs`).

Bytes are modelled as `Nat` (wire bytes are always produced `< 256`); a TCP
stream is modelled as a record of the bytes still readable from the peer, the
bytes written so far, and two flags saying whether writes and flushes on the
underlying socket succeed (a failed socket operation in Rust is an
`std::io::Error`; the flags stand for the environment's choice).
-/

namespace Manticore

/-- The variants of `manticore::io::Error` used by `tcp.rs`. -/
inductive IoError
  | BufferExhausted
  | Internal
deriving DecidableEq

/-- The variants of `manticore::net::Error` used by `tcp.rs`. -/
inductive NetError
  | Io (e : IoError)
  | BadHeader
  | OutOfOrder
  | Disconnected
deriving DecidableEq

/-- Modelled from the spec: `manticore::protocol::CommandType` is not under
`src/`; the spec describes it as a closed enumeration mapped bijectively to
single-byte wire values, with one reserved `Error` value meaning "this payload
is a protocol-level error description". A representative closed enumeration
with distinct wire bytes is used. -/
inductive CommandType
  | Error
  | FirmwareVersion
  | DeviceId
  | DeviceInfo
  | DeviceCapabilities
deriving DecidableEq

/-- Modelled from the spec: the `WireEnum::to_wire_value` mapping of
`CommandType` to its single wire byte (bijective onto its defined bytes). -/
def CommandType.to_wire_value : CommandType → Nat
  | .Error => 0x7f
  | .FirmwareVersion => 0x03
  | .DeviceId => 0x04
  | .DeviceInfo => 0x05
  | .DeviceCapabilities => 0x07

/-- Modelled from the spec: the `WireEnum::from_wire_value` partial inverse;
bytes not mapped to a defined `CommandType` yield `none`. -/
def CommandType.from_wire_value (b : Nat) : Option CommandType :=
  if b = 0x7f then some .Error
  else if b = 0x03 then some .FirmwareVersion
  else if b = 0x04 then some .DeviceId
  else if b = 0x05 then some .DeviceInfo
  else if b = 0x07 then some .DeviceCapabilities
  else none

/-- `manticore::net::CerberusHeader`: the abstract header is just a command. -/
structure CerberusHeader where
  command : CommandType
deriving DecidableEq

/-- Model of a `TcpStream`: `input` is what the peer will send us, `output`
is what we have written, `writeOk`/`flushOk` say whether socket writes and
flushes succeed. -/
structure TcpStream where
  input : List Nat
  output : List Nat
  writeOk : Bool
  flushOk : Bool
deriving DecidableEq

/-- `std::io::Read::read_exact` on a `TcpStream`: succeeds returning exactly
`n` bytes iff at least `n` bytes are available, else fails (short read or
disconnect). -/
def TcpStream.read_exact (s : TcpStream) (n : Nat) :
    Option (List Nat × TcpStream) :=
  if n ≤ s.input.length then
    some (s.input.take n, { s with input := s.input.drop n })
  else none

/-- `std::io::Write::write_all` on a `TcpStream`: appends the bytes to the
written output, or fails when the socket rejects writes. -/
def TcpStream.write_all (s : TcpStream) (bs : List Nat) : Option TcpStream :=
  if s.writeOk then some { s with output := s.output ++ bs } else none

/-- `u16::to_le_bytes` applied to `len as u16` (as in `Writer::finish`):
the length is truncated to 16 bits and split little-endian. -/
def u16_to_le_bytes (n : Nat) : List Nat :=
  [n % 65536 % 256, n % 65536 / 256]

/-- `u16::from_le_bytes([lo, hi])` (as in `header_from_wire`). -/
def u16_from_le_bytes (lo hi : Nat) : Nat :=
  lo + 256 * hi

/-- The 3 bytes of a Cerberus-over-TCP header as emitted by `Writer::finish`:
`[self.header.command.to_wire_value(), len_lo, len_hi]`. -/
def encode_header (h : CerberusHeader) (payload_len : Nat) : List Nat :=
  h.command.to_wire_value :: u16_to_le_bytes payload_len

/-- `header_from_wire`: reads exactly 3 bytes (an I/O failure, i.e. fewer than
3 bytes available, is normalized to `Io Internal`); the command byte must map
to a known `CommandType` (else `BadHeader`); the length is the 2 remaining
bytes little-endian. Returns the abstract header, the payload length, and the
stream with the 3 bytes consumed. -/
def header_from_wire (s : TcpStream) :
    Except NetError ((CerberusHeader × Nat) × TcpStream) :=
  match s.input with
  | cmd_byte :: len_lo :: len_hi :: rest =>
    match CommandType.from_wire_value cmd_byte with
    | none => .error .BadHeader
    | some cmd =>
      .ok ((⟨cmd⟩, u16_from_le_bytes len_lo len_hi), { s with input := rest })
  | _ => .error (.Io .Internal)

/-- The `Writer` helper: an abstract header plus a growable byte buffer. -/
structure Writer where
  header : CerberusHeader
  buf : List Nat
deriving DecidableEq

/-- `Writer::new`. -/
def Writer.new (h : CerberusHeader) : Writer :=
  ⟨h, []⟩

/-- `io::Write for Writer::write_bytes`: appends to the buffer; cannot fail. -/
def Writer.write_bytes (w : Writer) (bs : List Nat) : Except IoError Writer :=
  .ok { w with buf := w.buf ++ bs }

/-- `Writer::finish`: writes the 3 header bytes (length taken `as u16`, so
truncated mod 65536), then the buffered bytes; each failed `write_all` is
surfaced as `Io BufferExhausted`. Returns the sink after the writes. -/
def Writer.finish (w : Writer) (s : TcpStream) : Except NetError TcpStream :=
  match s.write_all (encode_header w.header w.buf.length) with
  | none => .error (.Io .BufferExhausted)
  | some s1 =>
    match s1.write_all w.buf with
    | none => .error (.Io .BufferExhausted)
    | some s2 => .ok s2

/-- The client-side `Reader(TcpStream, usize)` of `send_local`: a stream plus
the remaining payload budget. -/
structure Reader where
  stream : TcpStream
  len : Nat
deriving DecidableEq

/-- `io::Read for Reader::read_bytes`: fails `BufferExhausted` before touching
the stream when the request exceeds the budget; otherwise does the underlying
`read_exact` (`Internal` on its failure) and decrements the budget. `n` is the
length of the caller's `out` buffer; the read bytes are returned. -/
def Reader.read_bytes (r : Reader) (n : Nat) :
    Except IoError (List Nat) × Reader :=
  if r.len < n then (.error .BufferExhausted, r)
  else
    match r.stream.read_exact n with
    | none => (.error .Internal, r)
    | some (bs, s) => (.ok bs, ⟨s, r.len - n⟩)

/-- `io::Read for Reader::remaining_data`. -/
def Reader.remaining_data (r : Reader) : Nat :=
  r.len

/-- The `Inner` state of `TcpHostPort`: the request state (parsed header,
remaining payload length, accepted stream) and the response state (the
in-progress `Writer`). The listener itself is modelled as the environment
argument of `receive`. -/
structure Inner where
  stream : Option (CerberusHeader × Nat × TcpStream)
  output_buffer : Option Writer
deriving DecidableEq

/-- `HostRequest::header for Inner`: out-of-order once a reply has begun;
`Disconnected` with no accepted stream. -/
def Inner.header (i : Inner) : Except NetError CerberusHeader :=
  if i.output_buffer.isSome then .error .OutOfOrder
  else
    match i.stream with
    | some (h, _, _) => .ok h
    | none => .error .Disconnected

/-- `HostRequest::payload for Inner`: `Disconnected` with no accepted stream,
out-of-order once a reply has begun; otherwise yields the bounded reader view
(the `Inner` itself, unchanged). -/
def Inner.payload (i : Inner) : Except NetError Unit :=
  if i.stream.isNone then .error .Disconnected
  else if i.output_buffer.isSome then .error .OutOfOrder
  else .ok ()

/-- `HostRequest::reply for Inner`: same guards as `payload`; on success
installs a fresh `Writer` for the given response header. -/
def Inner.reply (i : Inner) (h : CerberusHeader) :
    Except NetError Unit × Inner :=
  if i.stream.isNone then (.error .Disconnected, i)
  else if i.output_buffer.isSome then (.error .OutOfOrder, i)
  else (.ok (), { i with output_buffer := some (Writer.new h) })

/-- `HostResponse::sink for Inner`: `Disconnected` with no accepted stream;
`OutOfOrder` when no reply has begun; otherwise yields the writable view. -/
def Inner.sink (i : Inner) : Except NetError Unit :=
  if i.stream.isNone then .error .Disconnected
  else if i.output_buffer.isSome then .ok ()
  else .error .OutOfOrder

/-- `HostResponse::finish for Inner`: requires both a live stream and a begun
writer (else `Disconnected`); takes the writer out of `output_buffer`, flushes
the frame through `Writer::finish` (early return on failure, with the writer
already consumed), then `stream.flush()` (failure normalized to
`Io Internal`); on success clears both fields. -/
def Inner.finish (i : Inner) : Except NetError Unit × Inner :=
  match i.stream, i.output_buffer with
  | some (h, len, st), some w =>
    match w.finish st with
    | .error e => (.error e, { stream := some (h, len, st), output_buffer := none })
    | .ok st' =>
      if st'.flushOk then (.ok (), { stream := none, output_buffer := none })
      else (.error (.Io .Internal),
            { stream := some (h, len, st'), output_buffer := none })
  | _, _ => (.error .Disconnected, i)

/-- `io::Read for Inner::read_bytes`: with no accepted stream fails
`Internal`; with a live stream behaves as the bounded reader (budget check
first, then the underlying `read_exact`, then the budget decrement). -/
def Inner.read_bytes (i : Inner) (n : Nat) :
    Except IoError (List Nat) × Inner :=
  match i.stream with
  | none => (.error .Internal, i)
  | some (h, len, st) =>
    if len < n then (.error .BufferExhausted, i)
    else
      match st.read_exact n with
      | none => (.error .Internal, i)
      | some (bs, st') =>
        (.ok bs, { i with stream := some (h, len - n, st') })

/-- `io::Read for Inner::remaining_data`: the remaining budget, or 0 with no
accepted stream. -/
def Inner.remaining_data (i : Inner) : Nat :=
  match i.stream with
  | some (_, len, _) => len
  | none => 0

/-- `HostPort for TcpHostPort::receive`: first discards the prior request
state (`inner.stream = None`), then blocks on `accept` (`accepted = none`
models an accept failure, normalized to `Io Internal`), then parses the frame
header; on success stores the parsed header, length and stream. -/
def TcpHostPort.receive (i : Inner) (accepted : Option TcpStream) :
    Except NetError Unit × Inner :=
  let i1 : Inner := { i with stream := none }
  match accepted with
  | none => (.error (.Io .Internal), i1)
  | some stream =>
    match header_from_wire stream with
    | .error e => (.error e, i1)
    | .ok ((header, len), stream') =>
      (.ok (), { i1 with stream := some (header, len, stream') })

/-- The branch taken by `send_local` after the response header is read: either
the payload is decoded as the success type, or as a protocol-level error
description; either way the payload is decoded through the bounded `Reader`.
The command-specific `FromWire` decoding itself is external to this module. -/
inductive SendOutcome
  | success (r : Reader)
  | protoError (r : Reader)
deriving DecidableEq

/-- `send_local`: connect (`conn = none` models a connect failure, normalized
to `Io Internal`), serialize the request through a `Writer` tagged with the
request's command type (`reqBytes` are the bytes `req.to_wire` emits;
`Writer::write_bytes` cannot fail), flush the frame with `Writer::finish`,
read one response frame header, then dispatch on the response command tag:
the expected success tag decodes the success payload, `CommandType.Error`
decodes a protocol-error payload, anything else is `BadHeader`. -/
def send_local (reqType respType : CommandType) (reqBytes : List Nat)
    (conn : Option TcpStream) : Except NetError SendOutcome :=
  match conn with
  | none => .error (.Io .Internal)
  | some conn =>
    let writer : Writer := { header := ⟨reqType⟩, buf := reqBytes }
    match writer.finish conn with
    | .error e => .error e
    | .ok conn =>
      match header_from_wire conn with
      | .error e => .error e
      | .ok ((header, len), conn) =>
        if header.command = respType then .ok (.success ⟨conn, len⟩)
        else if header.command = CommandType.Error then
          .ok (.protoError ⟨conn, len⟩)
        else .error .BadHeader

/-- `ModulusLength` from `src/crypto/rsa.rs`. -/
inductive ModulusLength
  | Bits2048
  | Bits3072
  | Bits4096
deriving DecidableEq

/-- `ModulusLength::bit_len`. -/
def ModulusLength.bit_len : ModulusLength → Nat
  | .Bits2048 => 2048
  | .Bits3072 => 3072
  | .Bits4096 => 4096

/-- `ModulusLength::byte_len`: `bit_len / 8`. -/
def ModulusLength.byte_len (m : ModulusLength) : Nat :=
  m.bit_len / 8

/-- `ModulusLength::from_bit_len`. -/
def ModulusLength.from_bit_len (len : Nat) : Option ModulusLength :=
  if len = 2048 then some .Bits2048
  else if len = 3072 then some .Bits3072
  else if len = 4096 then some .Bits4096
  else none

/-- `ModulusLength::from_byte_len`: `from_bit_len(len * 8)`. `len` is a
`usize` (64-bit), so the multiplication wraps modulo 2^64 in release builds;
the wrap is embedded explicitly (in debug builds the overflow panics
instead). -/
def ModulusLength.from_byte_len (len : Nat) : Option ModulusLength :=
  ModulusLength.from_bit_len (len * 8 % 18446744073709551616)

/-- Helper: the modelled wire mapping of `CommandType` is a section of its
partial inverse. -/
theorem from_to_wire_value (c : CommandType) :
    CommandType.from_wire_value c.to_wire_value = some c := by
  cases c <;> rfl

/-- Helper: decoding a stream that starts with the 3 encoded header bytes
recovers the header and length and consumes exactly those 3 bytes. -/
theorem header_from_wire_encode (c : CommandType) (len : Nat)
    (hlen : len ≤ 65535) (rest out : List Nat) (w f : Bool) :
    header_from_wire ⟨encode_header ⟨c⟩ len ++ rest, out, w, f⟩ =
      .ok ((⟨c⟩, len), ⟨rest, out, w, f⟩) := by
  have h2 : len % 65536 % 256 + 256 * (len % 65536 / 256) = len := by omega
  simp [encode_header, u16_to_le_bytes, header_from_wire, from_to_wire_value,
    u16_from_le_bytes, h2]

/-- Claim C8 counterexample: `from_byte_len` takes a `usize`, whose
multiplication by 8 wraps modulo 2^64 in release builds: at
`len = 2^61 + 256`, which matches none of the three byte sizes, the wrapped
product is 2048 and the program returns `some Bits2048` instead of `none`
(in debug builds the overflow panics rather than returning anything). -/
theorem claim8_modulus_length_cex :
    ModulusLength.from_byte_len (2 ^ 61 + 256) = some .Bits2048 ∧
    (2 ^ 61 + 256 : Nat) ≠ 256 ∧ (2 ^ 61 + 256 : Nat) ≠ 384 ∧
    (2 ^ 61 + 256 : Nat) ≠ 512 := by
  refine ⟨by decide, by decide, by decide, by decide⟩

/-- Claim C8 (amended): `ModulusLength` conversions are exact on their
intended ranges: `from_byte_len 256` is `Bits2048`, `Bits3072.byte_len` is
384, `byte_len` is `bit_len / 8` for each variant, `from_bit_len` returns
`none` on every integer matching none of the three bit sizes,
`from_byte_len` returns `none` on every integer below 2^61 matching none of
256/384/512 (in particular on 100; for byte counts of 2^61 and above the
`usize` multiplication `len * 8` wraps), and `from_bit_len` /
`from_byte_len` invert `bit_len` / `byte_len` on every variant. -/
theorem claim8_modulus_length :
    ModulusLength.from_byte_len 256 = some .Bits2048 ∧
    ModulusLength.byte_len .Bits3072 = 384 ∧
    (∀ x : ModulusLength, x.byte_len = x.bit_len / 8) ∧
    (∀ n : Nat, n ≠ 2048 → n ≠ 3072 → n ≠ 4096 →
      ModulusLength.from_bit_len n = none) ∧
    (∀ n : Nat, n < 2 ^ 61 → n ≠ 256 → n ≠ 384 → n ≠ 512 →
      ModulusLength.from_byte_len n = none) ∧
    ModulusLength.from_byte_len 100 = none ∧
    (∀ x : ModulusLength, ModulusLength.from_bit_len x.bit_len = some x) ∧
    (∀ x : ModulusLength, ModulusLength.from_byte_len x.byte_len = some x) := by
  refine ⟨by decide, by decide, fun x => by cases x <;> rfl, ?_, ?_, by decide,
    fun x => by cases x <;> rfl, fun x => by cases x <;> rfl⟩
  · intro n h1 h2 h3
    simp [ModulusLength.from_bit_len, h1, h2, h3]
  · intro n hlt h1 h2 h3
    unfold ModulusLength.from_byte_len ModulusLength.from_bit_len
    have hmod : n * 8 % 18446744073709551616 = n * 8 :=
      Nat.mod_eq_of_lt (by omega)
    rw [hmod]
    split_ifs with a b c
    · exact (h1 (by omega)).elim
    · exact (h2 (by omega)).elim
    · exact (h3 (by omega)).elim
    · rfl

/-- Witness for C8 (amended): `from_byte_len 999` is `none`. -/
theorem claim8_modulus_length_witness :
    ModulusLength.from_byte_len 999 = none :=
  claim8_modulus_length.2.2.2.2.1 999 (by decide) (by decide) (by decide)
    (by decide)

/-- Claim C9: with no accepted connection, the session's byte-reader view is
total and degenerate: `remaining_data` is 0 and `read_bytes` into a
non-empty buffer fails with the internal I/O error. -/
theorem claim9_no_session_reader (ob : Option Writer) (n : Nat)
    (hn : 0 < n) :
    Inner.remaining_data ⟨none, ob⟩ = 0 ∧
    Inner.read_bytes ⟨none, ob⟩ n = (.error .Internal, ⟨none, ob⟩) :=
  ⟨rfl, rfl⟩

/-- Witness for C9: the degenerate reader at `n = 1` with no writer. -/
theorem claim9_no_session_reader_witness :
    Inner.remaining_data ⟨none, none⟩ = 0 ∧
    Inner.read_bytes ⟨none, none⟩ 1 = (.error .Internal, ⟨none, none⟩) :=
  claim9_no_session_reader none 1 (by decide)

/-- Claim C2: the header codec round-trips: for every defined `CommandType`
and every payload length at most 65535, the 3 encoded bytes (command wire
byte, then the length little-endian) decode back to exactly the same header
and length; encoding is total, always producing exactly 3 bytes. -/
theorem claim2_header_roundtrip (h : CerberusHeader) (len : Nat)
    (hlen : len ≤ 65535) (rest out : List Nat) (w f : Bool) :
    (encode_header h len).length = 3 ∧
    header_from_wire ⟨encode_header h len ++ rest, out, w, f⟩ =
      .ok ((h, len), ⟨rest, out, w, f⟩) := by
  obtain ⟨c⟩ := h
  exact ⟨rfl, header_from_wire_encode c len hlen rest out w f⟩

/-- Witness for C2: round-trip at command `FirmwareVersion` and length 300. -/
theorem claim2_header_roundtrip_witness :
    (encode_header ⟨.FirmwareVersion⟩ 300).length = 3 ∧
    header_from_wire ⟨encode_header ⟨.FirmwareVersion⟩ 300 ++ [9], [], true, true⟩ =
      .ok ((⟨.FirmwareVersion⟩, 300), ⟨[9], [], true, true⟩) :=
  claim2_header_roundtrip ⟨.FirmwareVersion⟩ 300 (by decide) [9] [] true true

/-- Claim C3: the bounded payload readers (the client `Reader` and the server
session's byte view) with remaining budget `B`: a read of `n > B` bytes fails
`BufferExhausted` before touching the underlying stream, leaving budget and
stream unchanged; a read of `n ≤ B` performs the underlying read (failing
`Internal` on short read or disconnect, with no budget change), and on
success returns the next `n` bytes and decrements the budget by exactly `n`. -/
theorem claim3_bounded_reader (st : TcpStream) (B n : Nat)
    (h : CerberusHeader) (ob : Option Writer) :
    (B < n →
      Reader.read_bytes ⟨st, B⟩ n = (.error .BufferExhausted, ⟨st, B⟩) ∧
      Inner.read_bytes ⟨some (h, B, st), ob⟩ n =
        (.error .BufferExhausted, ⟨some (h, B, st), ob⟩)) ∧
    (n ≤ B →
      (st.input.length < n →
        Reader.read_bytes ⟨st, B⟩ n = (.error .Internal, ⟨st, B⟩) ∧
        Inner.read_bytes ⟨some (h, B, st), ob⟩ n =
          (.error .Internal, ⟨some (h, B, st), ob⟩)) ∧
      (n ≤ st.input.length →
        Reader.read_bytes ⟨st, B⟩ n =
          (.ok (st.input.take n),
           ⟨{ st with input := st.input.drop n }, B - n⟩) ∧
        Inner.read_bytes ⟨some (h, B, st), ob⟩ n =
          (.ok (st.input.take n),
           ⟨some (h, B - n, { st with input := st.input.drop n }), ob⟩))) := by
  refine ⟨fun hBn => ?_, fun hnB => ⟨fun hshort => ?_, fun hok => ?_⟩⟩
  · constructor <;> simp [Reader.read_bytes, Inner.read_bytes, hBn]
  · have h1 : ¬ B < n := by omega
    have h2 : ¬ n ≤ st.input.length := by omega
    constructor <;>
      simp [Reader.read_bytes, Inner.read_bytes, TcpStream.read_exact, h1, h2]
  · have h1 : ¬ B < n := by omega
    constructor <;>
      simp [Reader.read_bytes, Inner.read_bytes, TcpStream.read_exact, h1, hok]

/-- Witness for C3: reading 2 of 3 available bytes under budget 2. -/
theorem claim3_bounded_reader_witness :
    Reader.read_bytes ⟨⟨[1, 2, 3], [], true, true⟩, 2⟩ 2 =
      (.ok [1, 2], ⟨⟨[3], [], true, true⟩, 0⟩) ∧
    Inner.read_bytes ⟨some (⟨.Error⟩, 2, ⟨[1, 2, 3], [], true, true⟩), none⟩ 2 =
      (.ok [1, 2], ⟨some (⟨.Error⟩, 0, ⟨[3], [], true, true⟩), none⟩) :=
  ((claim3_bounded_reader ⟨[1, 2, 3], [], true, true⟩ 2 2 ⟨.Error⟩ none).2
    (by decide)).2 (by decide)

/-- Claim C1 counterexample: the claim as stated is false at two concrete
session states: with a live accepted connection and no begun reply,
`finish()` fails `Disconnected` (not `OutOfOrder` as claimed); and with no
accepted connection but a leftover in-progress writer, `header()` fails
`OutOfOrder` (not `Disconnected` as claimed). -/
theorem claim1_state_machine_cex :
    (Inner.finish ⟨some (⟨.FirmwareVersion⟩, 0, ⟨[], [], true, true⟩), none⟩).1 =
      .error .Disconnected ∧
    Inner.header ⟨none, some (Writer.new ⟨.DeviceId⟩)⟩ = .error .OutOfOrder ∧
    NetError.Disconnected ≠ NetError.OutOfOrder :=
  ⟨rfl, rfl, by decide⟩

/-- Claim C1 (amended): with a live accepted connection and no begun reply,
`sink()` fails `OutOfOrder` but `finish()` fails `Disconnected`; after
`reply()` has begun, `header()` and `payload()` fail `OutOfOrder`; when no
connection has been accepted and no in-progress reply is left over, all of
`header()`, `payload()`, `reply()`, `sink()`, `finish()` fail
`Disconnected`. -/
theorem claim1_state_machine (h h' : CerberusHeader) (len : Nat)
    (st : TcpStream) (w : Writer) :
    Inner.sink ⟨some (h, len, st), none⟩ = .error .OutOfOrder ∧
    (Inner.finish ⟨some (h, len, st), none⟩).1 = .error .Disconnected ∧
    Inner.header ⟨some (h, len, st), some w⟩ = .error .OutOfOrder ∧
    Inner.payload ⟨some (h, len, st), some w⟩ = .error .OutOfOrder ∧
    Inner.header ⟨none, none⟩ = .error .Disconnected ∧
    Inner.payload ⟨none, none⟩ = .error .Disconnected ∧
    (Inner.reply ⟨none, none⟩ h').1 = .error .Disconnected ∧
    Inner.sink ⟨none, none⟩ = .error .Disconnected ∧
    (Inner.finish ⟨none, none⟩).1 = .error .Disconnected :=
  ⟨rfl, rfl, rfl, rfl, rfl, rfl, rfl, rfl, rfl⟩

/-- Claim C10: `finish()` is not atomic on failure: when flushing the
buffered frame fails (either the socket write of the frame or the final
stream flush), the writer has already been taken out of `output_buffer`
while the connection remains stored, so afterwards `sink()` fails
`OutOfOrder` and a second `finish()` fails `Disconnected`; on success both
the connection and the writer are cleared. -/
theorem claim10_finish_not_atomic (h : CerberusHeader) (len : Nat)
    (st : TcpStream) (w : Writer) :
    (st.writeOk = false →
      (Inner.finish ⟨some (h, len, st), some w⟩).1 =
        .error (.Io .BufferExhausted) ∧
      (Inner.finish ⟨some (h, len, st), some w⟩).2 =
        ⟨some (h, len, st), none⟩ ∧
      Inner.sink (Inner.finish ⟨some (h, len, st), some w⟩).2 =
        .error .OutOfOrder ∧
      (Inner.finish (Inner.finish ⟨some (h, len, st), some w⟩).2).1 =
        .error .Disconnected) ∧
    (st.writeOk = true → st.flushOk = false →
      (Inner.finish ⟨some (h, len, st), some w⟩).1 = .error (.Io .Internal) ∧
      (Inner.finish ⟨some (h, len, st), some w⟩).2 =
        ⟨some (h, len,
          ⟨st.input, (st.output ++ encode_header w.header w.buf.length) ++ w.buf,
           st.writeOk, st.flushOk⟩), none⟩ ∧
      Inner.sink (Inner.finish ⟨some (h, len, st), some w⟩).2 =
        .error .OutOfOrder ∧
      (Inner.finish (Inner.finish ⟨some (h, len, st), some w⟩).2).1 =
        .error .Disconnected) ∧
    (st.writeOk = true → st.flushOk = true →
      Inner.finish ⟨some (h, len, st), some w⟩ = (.ok (), ⟨none, none⟩)) := by
  obtain ⟨inp, out, wo, fo⟩ := st
  refine ⟨fun hw => ?_, fun hw hf => ?_, fun hw hf => ?_⟩
  · subst hw
    exact ⟨rfl, rfl, rfl, rfl⟩
  · subst hw; subst hf
    exact ⟨rfl, rfl, rfl, rfl⟩
  · subst hw; subst hf
    rfl

/-- Witness for C10: a failed frame write leaves the connection stored and
the writer consumed. -/
theorem claim10_finish_not_atomic_witness :
    (Inner.finish ⟨some (⟨.Error⟩, 0, ⟨[], [], false, true⟩),
        some (Writer.new ⟨.Error⟩)⟩).1 = .error (.Io .BufferExhausted) ∧
    (Inner.finish ⟨some (⟨.Error⟩, 0, ⟨[], [], false, true⟩),
        some (Writer.new ⟨.Error⟩)⟩).2 =
      ⟨some (⟨.Error⟩, 0, ⟨[], [], false, true⟩), none⟩ :=
  ⟨((claim10_finish_not_atomic ⟨.Error⟩ 0 ⟨[], [], false, true⟩
      (Writer.new ⟨.Error⟩)).1 rfl).1,
   ((claim10_finish_not_atomic ⟨.Error⟩ 0 ⟨[], [], false, true⟩
      (Writer.new ⟨.Error⟩)).1 rfl).2.1⟩

/-- Claim C4 counterexample: `receive()` clears only the request state, not
`output_buffer`; after a successful receive on a session holding a leftover
in-progress reply, `header()` fails `OutOfOrder` instead of succeeding as the
claim states. -/
theorem claim4_receive_cex :
    (TcpHostPort.receive ⟨none, some (Writer.new ⟨.DeviceId⟩)⟩
        (some ⟨[0x03, 0, 0], [], true, true⟩)).1 = .ok () ∧
    Inner.header (TcpHostPort.receive ⟨none, some (Writer.new ⟨.DeviceId⟩)⟩
        (some ⟨[0x03, 0, 0], [], true, true⟩)).2 = .error .OutOfOrder :=
  ⟨rfl, rfl⟩

/-- Claim C4 (amended): `receive()` discards any prior request state (the
stored header, length and stream) before blocking, also when `accept` fails;
on successfully accepting and decoding a header, provided no in-progress
reply is left over from an earlier session, the session stores exactly the
parsed header, length and stream, and `header()`, `payload()` and `reply()`
all succeed. A leftover `output_buffer` from an earlier unfinished reply is
not discarded and makes those operations fail. -/
theorem claim4_receive (i : Inner) (hob : i.output_buffer = none)
    (conn conn' : TcpStream) (hdr : CerberusHeader) (len : Nat)
    (hparse : header_from_wire conn = .ok ((hdr, len), conn'))
    (h' : CerberusHeader) :
    (TcpHostPort.receive i none).2.stream = none ∧
    TcpHostPort.receive i (some conn) =
      (.ok (), ⟨some (hdr, len, conn'), none⟩) ∧
    Inner.header ⟨some (hdr, len, conn'), none⟩ = .ok hdr ∧
    Inner.payload ⟨some (hdr, len, conn'), none⟩ = .ok () ∧
    (Inner.reply ⟨some (hdr, len, conn'), none⟩ h').1 = .ok () := by
  obtain ⟨s, ob⟩ := i
  change ob = none at hob
  subst hob
  refine ⟨rfl, ?_, rfl, rfl, rfl⟩
  simp [TcpHostPort.receive, hparse]

/-- Witness for C4 (amended): a fresh session receiving a `DeviceId` header
with payload length 2. -/
theorem claim4_receive_witness :
    TcpHostPort.receive ⟨none, none⟩ (some ⟨[0x04, 2, 0], [], true, true⟩) =
      (.ok (), ⟨some (⟨.DeviceId⟩, 2, ⟨[], [], true, true⟩), none⟩) ∧
    Inner.header ⟨some (⟨.DeviceId⟩, 2, ⟨[], [], true, true⟩), none⟩ =
      .ok ⟨.DeviceId⟩ :=
  ⟨(claim4_receive ⟨none, none⟩ rfl ⟨[0x04, 2, 0], [], true, true⟩
      ⟨[], [], true, true⟩ ⟨.DeviceId⟩ 2 rfl ⟨.Error⟩).2.1,
   (claim4_receive ⟨none, none⟩ rfl ⟨[0x04, 2, 0], [], true, true⟩
      ⟨[], [], true, true⟩ ⟨.DeviceId⟩ 2 rfl ⟨.Error⟩).2.2.1⟩

/-- Helper: on a socket that accepts writes, `Writer::finish` emits the 3
encoded header bytes followed by the buffered bytes. -/
theorem Writer.finish_writeOk (w : Writer) (inp out : List Nat) (f : Bool) :
    Writer.finish w ⟨inp, out, true, f⟩ =
      .ok ⟨inp, (out ++ encode_header w.header w.buf.length) ++ w.buf,
           true, f⟩ :=
  rfl

/-- Claim C5 counterexample: `finish` does not fail when the buffered length
exceeds 65535: with a 65536-byte buffer it succeeds, truncating the length
to 16 bits and emitting the prefix bytes `[0, 0]`, which decode to 0, not to
the number of buffered bytes. -/
theorem claim5_framed_writer_cex :
    Writer.finish ⟨⟨.FirmwareVersion⟩, List.replicate 65536 0⟩
        ⟨[], [], true, true⟩ =
      .ok ⟨[], ([] ++ encode_header ⟨.FirmwareVersion⟩
            (List.replicate (65536 : Nat) (0 : Nat)).length) ++
          List.replicate 65536 0, true, true⟩ ∧
    encode_header ⟨.FirmwareVersion⟩
        (List.replicate (65536 : Nat) (0 : Nat)).length = [0x03, 0, 0] ∧
    u16_from_le_bytes 0 0 = 0 ∧
    (List.replicate (65536 : Nat) (0 : Nat)).length = 65536 := by
  refine ⟨Writer.finish_writeOk _ _ _ _, ?_, rfl, List.length_replicate _ _⟩
  rw [List.length_replicate]
  simp [encode_header, u16_to_le_bytes, CommandType.to_wire_value]

/-- Claim C5 (amended): every `write` appends the bytes to the internal
buffer and cannot fail; `finish` never fails because of the buffered length:
it emits the command byte and the buffer length truncated to 16 bits as 2
little-endian bytes, followed by all buffered bytes in order (so whenever the
buffered length is at most 65535 the emitted prefix decodes to exactly the
number of buffered payload bytes); a rejected socket write surfaces as
`Io BufferExhausted`. -/
theorem claim5_framed_writer (w : Writer) (bs : List Nat) (s : TcpStream) :
    Writer.write_bytes w bs = .ok ⟨w.header, w.buf ++ bs⟩ ∧
    (s.writeOk = true →
      Writer.finish w s =
        .ok ⟨s.input, (s.output ++ encode_header w.header w.buf.length) ++ w.buf,
             s.writeOk, s.flushOk⟩) ∧
    (w.buf.length ≤ 65535 →
      encode_header w.header w.buf.length =
        [w.header.command.to_wire_value, w.buf.length % 256, w.buf.length / 256] ∧
      u16_from_le_bytes (w.buf.length % 256) (w.buf.length / 256) =
        w.buf.length) ∧
    (s.writeOk = false → Writer.finish w s = .error (.Io .BufferExhausted)) := by
  obtain ⟨inp, out, wo, fo⟩ := s
  refine ⟨rfl, fun hw => ?_, fun hlen => ⟨?_, ?_⟩, fun hw => ?_⟩
  · subst hw; rfl
  · simp [encode_header, u16_to_le_bytes,
      Nat.mod_eq_of_lt (show w.buf.length < 65536 by omega)]
  · simp [u16_from_le_bytes]; omega
  · subst hw; rfl

/-- Witness for C5 (amended): flushing a 2-byte response frame. -/
theorem claim5_framed_writer_witness :
    Writer.finish ⟨⟨.DeviceInfo⟩, [0xAA, 0xBB]⟩ ⟨[], [], true, true⟩ =
      .ok ⟨[], ([] ++ encode_header ⟨.DeviceInfo⟩ 2) ++ [0xAA, 0xBB],
           true, true⟩ :=
  (claim5_framed_writer ⟨⟨.DeviceInfo⟩, [0xAA, 0xBB]⟩ [] ⟨[], [], true, true⟩).2.1
    rfl

/-- Claim C6: after reading one response frame header, the client driver
returns the success-decoding branch when the response tag equals the expected
success-response tag, the protocol-error-decoding branch when the tag is the
reserved `Error` tag, and fails `BadHeader` for every other defined tag
(the expected success tag of a command is never the reserved tag). -/
theorem claim6_client_dispatch (reqType respType tag : CommandType)
    (reqBytes rest out : List Nat) (len : Nat) (f : Bool)
    (hresp : respType ≠ .Error) (hlen : len ≤ 65535) :
    (tag = respType →
      send_local reqType respType reqBytes
          (some ⟨encode_header ⟨tag⟩ len ++ rest, out, true, f⟩) =
        .ok (.success ⟨⟨rest,
          (out ++ encode_header ⟨reqType⟩ reqBytes.length) ++ reqBytes,
          true, f⟩, len⟩)) ∧
    (tag = .Error →
      send_local reqType respType reqBytes
          (some ⟨encode_header ⟨tag⟩ len ++ rest, out, true, f⟩) =
        .ok (.protoError ⟨⟨rest,
          (out ++ encode_header ⟨reqType⟩ reqBytes.length) ++ reqBytes,
          true, f⟩, len⟩)) ∧
    (tag ≠ respType → tag ≠ .Error →
      send_local reqType respType reqBytes
          (some ⟨encode_header ⟨tag⟩ len ++ rest, out, true, f⟩) =
        .error .BadHeader) := by
  have hW : ∀ inp, Writer.finish ⟨⟨reqType⟩, reqBytes⟩ ⟨inp, out, true, f⟩ =
      .ok ⟨inp, (out ++ encode_header ⟨reqType⟩ reqBytes.length) ++ reqBytes,
           true, f⟩ :=
    fun inp => rfl
  refine ⟨fun ht => ?_, fun ht => ?_, fun h1 h2 => ?_⟩
  · rw [ht]
    simp [send_local, hW, header_from_wire_encode respType len hlen]
  · rw [ht]
    have h2 : CommandType.Error ≠ respType := fun hh => hresp hh.symm
    simp [send_local, hW, header_from_wire_encode CommandType.Error len hlen, h2]
  · simp [send_local, hW, header_from_wire_encode tag len hlen, h1, h2]

/-- Witness for C6: a matching success tag takes the success branch. -/
theorem claim6_client_dispatch_witness :
    send_local .DeviceId .FirmwareVersion [7]
        (some ⟨encode_header ⟨.FirmwareVersion⟩ 1 ++ [5], [], true, true⟩) =
      .ok (.success ⟨⟨[5], ([] ++ encode_header ⟨.DeviceId⟩ 1) ++ [7],
           true, true⟩, 1⟩) :=
  (claim6_client_dispatch .DeviceId .FirmwareVersion .FirmwareVersion [7] [5]
    [] 1 true (by decide) (by decide)).1 rfl

/-- Claim C7 counterexample: the framed writer's `finish` surfaces a failed
socket write as `Io BufferExhausted`, not as the internal-I/O error kind the
claim states. -/
theorem claim7_io_normalization_cex :
    Writer.finish (Writer.new ⟨.FirmwareVersion⟩) ⟨[], [], false, true⟩ =
      .error (.Io .BufferExhausted) ∧
    NetError.Io .BufferExhausted ≠ NetError.Io .Internal :=
  ⟨rfl, by decide⟩

/-- Claim C7 (amended): every transport I/O fault is surfaced as the `Io`
error kind: connect failure, accept failure, a short header read, a short or
disconnected bounded payload read, and a failed final stream flush are
normalized to the internal kind, while the framed writer's `finish` surfaces
a failed socket write as `Io BufferExhausted`. -/
theorem claim7_io_faults (rt rp : CommandType) (bs : List Nat)
    (i : Inner) (s : TcpStream) :
    send_local rt rp bs none = .error (.Io .Internal) ∧
    (TcpHostPort.receive i none).1 = .error (.Io .Internal) ∧
    (s.input.length < 3 → header_from_wire s = .error (.Io .Internal)) ∧
    (∀ B n : Nat, n ≤ B → s.input.length < n →
      (Reader.read_bytes ⟨s, B⟩ n).1 = .error .Internal) ∧
    (s.writeOk = false →
      ∀ w : Writer, w.finish s = .error (.Io .BufferExhausted)) ∧
    (s.writeOk = true → s.flushOk = false →
      ∀ (h : CerberusHeader) (len : Nat) (w : Writer),
        (Inner.finish ⟨some (h, len, s), some w⟩).1 = .error (.Io .Internal)) := by
  obtain ⟨inp, out, wo, fo⟩ := s
  refine ⟨rfl, rfl, fun hshort => ?_, fun B n hnB hs => ?_, fun hw w => ?_,
    fun hw hf h len w => ?_⟩
  · rcases inp with _ | ⟨a, _ | ⟨b, _ | ⟨c, t⟩⟩⟩
    · rfl
    · rfl
    · rfl
    · simp only [List.length_cons] at hshort
      omega
  · have hs' : inp.length < n := hs
    have h1 : ¬ B < n := by omega
    have h2 : ¬ n ≤ inp.length := by omega
    simp [Reader.read_bytes, TcpStream.read_exact, h1, h2]
  · subst hw; rfl
  · subst hw; subst hf; rfl

/-- Witness for C7 (amended): a header read with only one byte available. -/
theorem claim7_io_faults_witness :
    header_from_wire ⟨[1], [], true, true⟩ = .error (.Io .Internal) :=
  (claim7_io_faults .Error .Error [] ⟨none, none⟩ ⟨[1], [], true, true⟩).2.2.1
    (by decide)

end Manticore
